import Mathlib

/-!
Verification of the GitHub PR review agent (src/github-pr-review-agent.py)
against its natural-language specification.

The Python source is shallowly embedded: Python dict values flowing through
the program are modelled by `PyValue`; Python exceptions by `PyErr` together
with `Except`; the GitHub hosting collaborator is modelled as explicit state
(`HostState`) per the spec's external-interface description (a pull request
surfaces title, body, author login, state, branch refs, and an ordered list
of changed files, each `{path, status, patch-or-absent}`).
-/

namespace PRAgent

/-- Python runtime values, as far as this program manipulates them: `None`,
booleans, integers, floats, strings, lists and (string-keyed) dicts.
Floating-point numbers are kept as their source lexeme; no claim evaluates
float arithmetic. -/
inductive PyValue where
  | pyNone : PyValue
  | bool (b : Bool) : PyValue
  | int (n : Int) : PyValue
  | float (lexeme : String) : PyValue
  | str (s : String) : PyValue
  | list (xs : List PyValue) : PyValue
  | dict (kvs : List (String × PyValue)) : PyValue

/-- Python exceptions raised by the embedded code paths: `NameError` (unbound
name), `KeyError` (dict subscript on a missing key), `TypeError`
(`str.join` over non-string items), and PyGithub's `UnknownObjectException`
for a failed pull-request lookup. -/
inductive PyErr where
  | nameError (name : String) : PyErr
  | keyError (key : String) : PyErr
  | typeError : PyErr
  | githubUnknownObject : PyErr
deriving DecidableEq, Repr

/-- Lookup in a Python dict represented as an insertion-ordered key/value
list: later bindings of the same key overwrite earlier ones, so the last
matching pair wins (Python dict semantics). -/
def pyDictFind (kvs : List (String × PyValue)) (k : String) : Option PyValue :=
  kvs.foldl (fun acc kv => if kv.1 == k then some kv.2 else acc) Option.none

/-- Python `dict.get(k, default)`. -/
def pyDictGet (kvs : List (String × PyValue)) (k : String) (default : PyValue) : PyValue :=
  (pyDictFind kvs k).getD default

/-- Iteration order of a Python dict's keys: first occurrence of each key. -/
def pyDictKeys (kvs : List (String × PyValue)) : List String :=
  kvs.foldl (fun acc kv => if acc.contains kv.1 then acc else acc ++ [kv.1]) []

mutual

/-- Python `repr`. String escapes inside `repr` of a string are not modelled
(no claim evaluates `repr` on strings containing quotes). -/
def pyRepr : PyValue → String
  | PyValue.pyNone => "None"
  | PyValue.bool b => if b then "True" else "False"
  | PyValue.int n => toString n
  | PyValue.float lexeme => lexeme
  | PyValue.str s => "'" ++ s ++ "'"
  | PyValue.list xs => "[" ++ pyReprList xs ++ "]"
  | PyValue.dict kvs => "\x7b" ++ pyReprKVs kvs ++ "\x7d"

/-- Comma-separated `repr`s of list elements. -/
def pyReprList : List PyValue → String
  | [] => ""
  | [x] => pyRepr x
  | x :: y :: xs => pyRepr x ++ ", " ++ pyReprList (y :: xs)

/-- Comma-separated `'key': repr(value)` pairs of a dict. -/
def pyReprKVs : List (String × PyValue) → String
  | [] => ""
  | [(k, v)] => "'" ++ k ++ "': " ++ pyRepr v
  | (k, v) :: p :: xs => "'" ++ k ++ "': " ++ pyRepr v ++ ", " ++ pyReprKVs (p :: xs)

end

/-- Python `str()`: identity on strings, `repr` otherwise (and `repr` agrees
with `str` on the remaining constructors this program reaches). -/
def pyStr : PyValue → String
  | PyValue.str s => s
  | v => pyRepr v

/-- Require every element of a list to be a Python string, as `str.join`
does while iterating; `none` models the `TypeError` raised otherwise. -/
def allStrs : List PyValue → Option (List String)
  | [] => some []
  | PyValue.str s :: xs => (allStrs xs).map (fun r => s :: r)
  | _ => Option.none

/-- Python `sep.join(v)`: joins a list of strings; iterating a string joins
its characters; iterating a dict joins its keys; any other argument (or a
non-string element) raises `TypeError`. -/
def pyJoin (sep : String) (v : PyValue) : Except PyErr String :=
  match v with
  | PyValue.str s => Except.ok (String.intercalate sep (s.toList.map (fun c => String.mk [c])))
  | PyValue.list xs =>
    match allStrs xs with
    | some ss => Except.ok (String.intercalate sep ss)
    | Option.none => Except.error PyErr.typeError
  | PyValue.dict kvs => Except.ok (String.intercalate sep (pyDictKeys kvs))
  | _ => Except.error PyErr.typeError

/-- Whitespace skipping of Python's JSON scanner (space, tab, newline, CR). -/
def jskipWs : List Char → List Char
  | c :: cs => if c = ' ' ∨ c = '\t' ∨ c = '\n' ∨ c = '\r' then jskipWs cs else c :: cs
  | [] => []

/-- Longest leading run of ASCII digits. -/
def jdigits : List Char → List Char × List Char
  | c :: cs =>
    if c.isDigit then
      let p := jdigits cs
      (c :: p.1, p.2)
    else ([], c :: cs)
  | [] => ([], [])

/-- Numeric value of a hex digit, when it is one. -/
def hexVal (c : Char) : Option Nat :=
  if '0' ≤ c ∧ c ≤ '9' then some (c.toNat - 48)
  else if 'a' ≤ c ∧ c ≤ 'f' then some (c.toNat - 87)
  else if 'A' ≤ c ∧ c ≤ 'F' then some (c.toNat - 70)
  else Option.none

/-- Body of a JSON string after the opening quote, to be read up to the
closing quote. Escapes follow the JSON grammar as Python's strict decoder
accepts it: the short escapes, `\uXXXX` code units (surrogate-pair
combination is not modelled; such a unit maps through `Char.ofNat`), and
raw control characters below U+0020 are rejected. -/
def jstrBody : List Char → String → Option (String × List Char)
  | '"' :: r, acc => some (acc, r)
  | '\\' :: 'u' :: h1 :: h2 :: h3 :: h4 :: r, acc =>
    match hexVal h1, hexVal h2, hexVal h3, hexVal h4 with
    | some a, some b, some c, some d =>
      jstrBody r (acc.push (Char.ofNat (((a * 16 + b) * 16 + c) * 16 + d)))
    | _, _, _, _ => Option.none
  | '\\' :: e :: r, acc =>
    match e with
    | '"' => jstrBody r (acc.push '"')
    | '\\' => jstrBody r (acc.push '\\')
    | '/' => jstrBody r (acc.push '/')
    | 'b' => jstrBody r (acc.push '\x08')
    | 'f' => jstrBody r (acc.push '\x0C')
    | 'n' => jstrBody r (acc.push '\n')
    | 'r' => jstrBody r (acc.push '\r')
    | 't' => jstrBody r (acc.push '\t')
    | _ => Option.none
  | c :: r, acc => if c.toNat < 0x20 then Option.none else jstrBody r (acc.push c)
  | [], _ => Option.none

/-- Keyword constants of Python's JSON decoder: the standard `true`,
`false`, `null`, and the non-standard `NaN`, `Infinity`, `-Infinity` that
`json.loads` accepts by default. -/
def jconst (cs : List Char) : Option (PyValue × List Char) :=
  if "true".toList.isPrefixOf cs then some (PyValue.bool true, cs.drop 4)
  else if "false".toList.isPrefixOf cs then some (PyValue.bool false, cs.drop 5)
  else if "null".toList.isPrefixOf cs then some (PyValue.pyNone, cs.drop 4)
  else if "NaN".toList.isPrefixOf cs then some (PyValue.float "nan", cs.drop 3)
  else if "Infinity".toList.isPrefixOf cs then some (PyValue.float "inf", cs.drop 8)
  else if "-Infinity".toList.isPrefixOf cs then some (PyValue.float "-inf", cs.drop 9)
  else Option.none

/-- JSON number per the grammar `-?(0|[1-9][0-9]*)(\.[0-9]+)?([eE][+-]?[0-9]+)?`;
an integer lexeme decodes to a Python int, otherwise to a float carrying
its lexeme. -/
def jnumber (cs : List Char) : Option (PyValue × List Char) :=
  let sgn : Bool × List Char := match cs with | '-' :: r => (true, r) | _ => (false, cs)
  let intPart := jdigits sgn.2
  match intPart.1 with
  | [] => Option.none
  | d0 :: drest =>
    if d0 = '0' ∧ drest ≠ [] then Option.none
    else
      let fracPart : Option (Bool × List Char) :=
        match intPart.2 with
        | '.' :: r =>
          let fd := jdigits r
          if fd.1 = [] then Option.none else some (true, fd.2)
        | _ => some (false, intPart.2)
      match fracPart with
      | Option.none => Option.none
      | some (hasFrac, cs3) =>
        let expPart : Option (Bool × List Char) :=
          match cs3 with
          | 'e' :: r | 'E' :: r =>
            let r2 := match r with | '+' :: t => t | '-' :: t => t | _ => r
            let ed := jdigits r2
            if ed.1 = [] then Option.none else some (true, ed.2)
          | _ => some (false, cs3)
        match expPart with
        | Option.none => Option.none
        | some (hasExp, rest) =>
          if hasFrac ∨ hasExp then
            some (PyValue.float (String.mk (cs.take (cs.length - rest.length))), rest)
          else
            let n : Nat := (d0 :: drest).foldl (fun a c => a * 10 + (c.toNat - 48)) 0
            some (PyValue.int (if sgn.1 then -(n : Int) else (n : Int)), rest)

mutual

/-- Parse one JSON value (leading whitespace already skipped), fuel-bounded. -/
def jvalue : Nat → List Char → Option (PyValue × List Char)
  | 0, _ => Option.none
  | fuel + 1, cs =>
    match cs with
    | '"' :: r => (jstrBody r "").map (fun p => (PyValue.str p.1, p.2))
    | '{' :: r =>
      match jskipWs r with
      | '}' :: r2 => some (PyValue.dict [], r2)
      | r2 => jmembers fuel r2 []
    | '[' :: r =>
      match jskipWs r with
      | ']' :: r2 => some (PyValue.list [], r2)
      | r2 => jitems fuel r2 []
    | _ =>
      match jconst cs with
      | some p => some p
      | Option.none => jnumber cs

/-- Parse the members of a JSON object from the first key onward. -/
def jmembers : Nat → List Char → List (String × PyValue) → Option (PyValue × List Char)
  | 0, _, _ => Option.none
  | fuel + 1, cs, acc =>
    match cs with
    | '"' :: r =>
      match jstrBody r "" with
      | Option.none => Option.none
      | some (k, r2) =>
        match jskipWs r2 with
        | ':' :: r3 =>
          match jvalue fuel (jskipWs r3) with
          | Option.none => Option.none
          | some (v, r4) =>
            match jskipWs r4 with
            | ',' :: r5 => jmembers fuel (jskipWs r5) (acc ++ [(k, v)])
            | '}' :: r5 => some (PyValue.dict (acc ++ [(k, v)]), r5)
            | _ => Option.none
        | _ => Option.none
    | _ => Option.none

/-- Parse the items of a JSON array from the first element onward. -/
def jitems : Nat → List Char → List PyValue → Option (PyValue × List Char)
  | 0, _, _ => Option.none
  | fuel + 1, cs, acc =>
    match jvalue fuel cs with
    | Option.none => Option.none
    | some (v, r) =>
      match jskipWs r with
      | ',' :: r2 => jitems fuel (jskipWs r2) (acc ++ [v])
      | ']' :: r2 => some (PyValue.list (acc ++ [v]), r2)
      | _ => Option.none

end

/-- Python `json.loads`: decode one JSON document; trailing non-whitespace
(or any syntax error) makes the whole decode fail, modelling
`json.JSONDecodeError` as `none`. The fuel `2 * length + 2` dominates the
recursion depth, which consumes at least one input character every two
steps. -/
def jsonLoads (s : String) : Option PyValue :=
  match jvalue (2 * s.length + 2) (jskipWs s.toList) with
  | some (v, rest) => if jskipWs rest = [] then some v else Option.none
  | Option.none => Option.none

/-- Changed file of a pull request as the hosting collaborator surfaces it:
`{path, status, patch-or-absent}` (spec §6). Absence of a unified diff
(binary or rename-only change) is the `none` case; `hasattr(file, 'patch')`
in the source is modelled as presence of this optional field. -/
structure ChangedFile where
  filename : String
  status : String
  patch : Option String
deriving DecidableEq, Repr

/-- Pull-request data surfaced by the hosting collaborator: title, body
(possibly absent), author login, lifecycle state, branch refs, and the
ordered changed-file listing. -/
structure PullRequestData where
  title : String
  body : Option String
  user_login : String
  state : String
  base_ref : String
  head_ref : String
  files : List ChangedFile
deriving DecidableEq, Repr

/-- State of the hosting collaborator: the pull requests it knows (keyed by
number) and the log of comments posted so far — the write-path state. -/
structure HostState where
  pulls : List (Int × PullRequestData)
  comments : List (Int × String)
deriving DecidableEq, Repr

/-- Look a pull request up by number (`repo.get_pull`), `none` when the
number is unknown (PyGithub raises `UnknownObjectException`). -/
def getPull (host : HostState) (pr_number : Int) : Option PullRequestData :=
  (host.pulls.find? (fun p => p.1 == pr_number)).map (fun p => p.2)

/-- Dictionary returned by `get_pr_details` (src lines 92-101), as a typed
record with the same eight keys. -/
structure PRDetails where
  title : String
  description : String
  author : String
  state : String
  base_branch : String
  head_branch : String
  changed_files : List String
  file_patches : String
deriving DecidableEq, Repr

/-- Patch text placed in a file's block (src line 89):
`file.patch if hasattr(file, 'patch') else "No patch available"`. -/
def patchText (file : ChangedFile) : String :=
  match file.patch with
  | some p => p
  | Option.none => "No patch available"

/-- Per-file block (src line 90):
`f"File: {file.filename}\nStatus: {file.status}\nPatch:\n{patch}"`. -/
def fileBlock (file : ChangedFile) : String :=
  "File: " ++ file.filename ++ "\nStatus: " ++ file.status ++ "\nPatch:\n" ++ patchText file

/-- The `file_patches` accumulation loop of src lines 87-90: start from the
empty list and append one block per changed file, in listing order. -/
def filePatchList (files : List ChangedFile) : List String :=
  files.foldl (fun acc file => acc ++ [fileBlock file]) []

/-- Snapshot construction of src lines 83-101: the body of `get_pr_details`
as a function of the pull request it would operate on. `pr.body or
"No description provided"` uses Python truthiness, so both an absent body
and an empty-string body fall to the default. -/
def buildPRDetails (pr : PullRequestData) : PRDetails :=
  { title := pr.title
    description :=
      match pr.body with
      | some b => if b = "" then "No description provided" else b
      | Option.none => "No description provided"
    author := pr.user_login
    state := pr.state
    base_branch := pr.base_ref
    head_branch := pr.head_ref
    changed_files := pr.files.map (fun f => f.filename)
    file_patches := String.intercalate "\n\n" (filePatchList pr.files) }

/-- Names visible from the body of `get_pr_details`: its local scope binds
only `self` and `pr_number`; the module's global scope binds only the
imported names, the class and `main` (src lines 1-14, 14, 174). -/
def getPrDetailsScopeNames : List String :=
  ["self", "pr_number",
   "os", "json", "Dict", "Any", "Github", "ChatNVIDIA", "ChatOpenAI",
   "ChatPromptTemplate", "StrOutputParser", "RunnablePassthrough",
   "GitHubPRReviewAgent", "main"]

/-- Embeds `get_pr_details` (src lines 74-101). Its first statement,
`pr = repo.get_pull(pr_name)` (line 81), resolves the names `repo` and then
`pr_name`; neither is bound in any enclosing scope
(`getPrDetailsScopeNames`), so the statement raises `NameError` before any
host interaction, and the snapshot construction (embedded as
`buildPRDetails`) is unreachable from here. -/
def get_pr_details (_host : HostState) (_pr_number : Int) : Except PyErr PRDetails :=
  if "repo" ∈ getPrDetailsScopeNames then
    Except.error (PyErr.nameError "pr_name")
  else
    Except.error (PyErr.nameError "repo")

/-- Subscript access `pr_details[k]` on the dict built by `get_pr_details`:
defined exactly for its eight keys, `none` models `KeyError` elsewhere. -/
def prDetailsItem (d : PRDetails) (k : String) : Option PyValue :=
  match k with
  | "title" => some (PyValue.str d.title)
  | "description" => some (PyValue.str d.description)
  | "author" => some (PyValue.str d.author)
  | "state" => some (PyValue.str d.state)
  | "base_branch" => some (PyValue.str d.base_branch)
  | "head_branch" => some (PyValue.str d.head_branch)
  | "changed_files" => some (PyValue.list (d.changed_files.map PyValue.str))
  | "file_patches" => some (PyValue.str d.file_patches)
  | _ => Option.none

/-- Values assigned into the review chain's template slots
(src lines 115-121). -/
structure ChainInputs where
  pr_title : PyValue
  pr_description : PyValue
  pr_author : PyValue
  changed_files : PyValue
  code_patches : PyValue

/-- Embeds the `RunnablePassthrough.assign` block of `review_pull_request`
(src lines 115-121), evaluating the slot lambdas in source order:
`pr_title = pr_details['title']`, `pr_description = pr_details['description']`,
`pr_author = pr_details['bug']`, `changed_files = ', '.join(pr_details['changed_files'])`,
`code_patches = pr_details['file_patches']`. A missing dict key raises
`KeyError`. -/
def reviewChainInputs (d : PRDetails) : Except PyErr ChainInputs :=
  match prDetailsItem d "title" with
  | Option.none => Except.error (PyErr.keyError "title")
  | some t =>
  match prDetailsItem d "description" with
  | Option.none => Except.error (PyErr.keyError "description")
  | some desc =>
  match prDetailsItem d "bug" with
  | Option.none => Except.error (PyErr.keyError "bug")
  | some a =>
  match prDetailsItem d "changed_files" with
  | Option.none => Except.error (PyErr.keyError "changed_files")
  | some cf =>
  match pyJoin ", " cf with
  | Except.error e => Except.error e
  | Except.ok cfJoined =>
  match prDetailsItem d "file_patches" with
  | Option.none => Except.error (PyErr.keyError "file_patches")
  | some cp =>
    Except.ok { pr_title := t, pr_description := desc, pr_author := a,
                changed_files := PyValue.str cfJoined, code_patches := cp }

/-- Embeds the response-parsing step of `review_pull_request`
(src lines 130-139), as a function of the raw completion text: try
`json.loads`; on `JSONDecodeError`, fall back to the dict
`{"overall_assessment": "Unable to parse review details", "raw_review": review_str}`.
Totality of this function is the embedded form of the step never raising. -/
def parseReviewStr (review_str : String) : PyValue :=
  match jsonLoads review_str with
  | some v => v
  | Option.none =>
    PyValue.dict [("overall_assessment", PyValue.str "Unable to parse review details"),
                  ("raw_review", PyValue.str review_str)]

/-- Comment construction of `post_review_comment` (src lines 150-169): the
f-string with seven sections, evaluating its substitution fields left to
right — `overall_assessment` through `str()`, the four list-valued fields
through `chr(10).join(review_dict.get(key, [default]))` (the first failing
join raises `TypeError`), and the score through `str()` with default
`'N/A'`. -/
def renderComment (pr_number : Int) (review_dict : List (String × PyValue)) : Except PyErr String :=
  match pyJoin "\n" (pyDictGet review_dict "strengths" (PyValue.list [PyValue.str "No specific strengths noted"])) with
  | Except.error e => Except.error e
  | Except.ok strengths =>
  match pyJoin "\n" (pyDictGet review_dict "concerns" (PyValue.list [PyValue.str "No specific concerns identified"])) with
  | Except.error e => Except.error e
  | Except.ok concerns =>
  match pyJoin "\n" (pyDictGet review_dict "recommendations" (PyValue.list [PyValue.str "No specific recommendations"])) with
  | Except.error e => Except.error e
  | Except.ok recommendations =>
  match pyJoin "\n" (pyDictGet review_dict "test_plan" (PyValue.list [PyValue.str "No specific recommendations"])) with
  | Except.error e => Except.error e
  | Except.ok test_plan =>
    Except.ok ("## PR Review for #" ++ toString pr_number ++
      "\n\n### Overall Assessment\n" ++
      pyStr (pyDictGet review_dict "overall_assessment" (PyValue.str "No overall assessment provided")) ++
      "\n\n### Strengths\n" ++ strengths ++
      "\n\n### Concerns\n" ++ concerns ++
      "\n\n### Recommendations\n" ++ recommendations ++
      "\n\n### Testing Suggestions\n" ++ test_plan ++
      "\n\n### Code Quality Score: " ++
      pyStr (pyDictGet review_dict "code_quality_score" (PyValue.str "N/A")) ++
      "/10\n")

/-- Embeds `post_review_comment` (src lines 141-171): read the pull request
(`self.repo.get_pull(pr_number)`, which raises for an unknown number),
build the comment text, and return it together with the hosting state after
the call — the posting statement `pr.create_issue_comment(comment)` is
commented out in the source (line 171), so no write to the host occurs on
any path. -/
def post_review_comment (host : HostState) (pr_number : Int)
    (review_dict : List (String × PyValue)) : Except PyErr String × HostState :=
  match getPull host pr_number with
  | Option.none => (Except.error PyErr.githubUnknownObject, host)
  | some _pr =>
    match renderComment pr_number review_dict with
    | Except.error e => (Except.error e, host)
    | Except.ok comment => (Except.ok comment, host)

/-- Auxiliary substring test over character lists: does the needle occur as
a contiguous run of the haystack? -/
def strHasAux : List Char → List Char → Bool
  | [], needle => needle.isEmpty
  | cs@(_ :: t), needle => needle.isPrefixOf cs || strHasAux t needle

/-- Substring test on strings, used to state which default sentences appear
in a rendered comment. -/
def strHas (hay needle : String) : Bool :=
  strHasAux hay.toList needle.toList

/-- Accumulating one block per file from the left is the same as mapping
`fileBlock` over the listing, so blocks appear in listing order. -/
lemma filePatchList_eq_map (files : List ChangedFile) :
    filePatchList files = files.map fileBlock := by
  have h : ∀ (l : List ChangedFile) (acc : List String),
      l.foldl (fun a file => a ++ [fileBlock file]) acc = acc ++ l.map fileBlock := by
    intro l
    induction l with
    | nil => intro acc; simp
    | cons f t ih => intro acc; simp [ih]
  simpa using h files []

/-- C1: for every raw completion text on which structured parsing fails,
the parse step of `review_pull_request` yields the degraded fallback dict
whose `overall_assessment` is the fixed "Unable to parse review details"
message and whose `raw_review` field is the input text verbatim
(raw-in equals raw-out); the step is a total function, so it never raises. -/
theorem parse_failure_fallback (review_str : String)
    (hfail : jsonLoads review_str = Option.none) :
    parseReviewStr review_str =
      PyValue.dict [("overall_assessment", PyValue.str "Unable to parse review details"),
                    ("raw_review", PyValue.str review_str)] ∧
    pyDictFind [("overall_assessment", PyValue.str "Unable to parse review details"),
                ("raw_review", PyValue.str review_str)] "raw_review" =
      some (PyValue.str review_str) :=
  ⟨by simp [parseReviewStr, hfail], rfl⟩

/-- C1 witness: plain prose is not valid JSON and produces the fallback. -/
theorem parse_failure_fallback_witness :
    jsonLoads "This PR looks good to me." = Option.none ∧
    parseReviewStr "This PR looks good to me." =
      PyValue.dict [("overall_assessment", PyValue.str "Unable to parse review details"),
                    ("raw_review", PyValue.str "This PR looks good to me.")] :=
  ⟨rfl, (parse_failure_fallback "This PR looks good to me." rfl).1⟩

/-- C2: `get_pr_details` never queries the host for the requested pull
request: its first statement refers to the unbound names `repo` and
`pr_name`, so for every hosting state and every pull-request number it
raises `NameError` — it does not return a snapshot even when the lookup for
that number would succeed. -/
theorem get_pr_details_name_error :
    ("repo" ∉ getPrDetailsScopeNames ∧ "pr_name" ∉ getPrDetailsScopeNames) ∧
    ∀ (host : HostState) (pr_number : Int),
      get_pr_details host pr_number = Except.error (PyErr.nameError "repo") := by
  refine ⟨by decide, ?_⟩
  intro host pr_number
  rw [get_pr_details, if_neg (by decide)]

/-- C3: the review chain's input construction raises `KeyError` on every
snapshot: the `pr_author` slot reads `pr_details['bug']`, a key the
snapshot dict never contains, instead of the snapshot's author field. -/
theorem review_chain_author_key_error (d : PRDetails) :
    reviewChainInputs d = Except.error (PyErr.keyError "bug") := rfl

/-- C4: for every pull request with N changed files, the concatenated patch
text is exactly the N per-file blocks
`File: <path>\nStatus: <status>\nPatch:\n<patch-or-sentinel>` joined by a
blank line, in the host's file-listing order. -/
theorem file_patches_blocks (pr : PullRequestData) :
    (filePatchList pr.files).length = pr.files.length ∧
    (buildPRDetails pr).file_patches =
      String.intercalate "\n\n"
        (pr.files.map (fun file =>
          "File: " ++ file.filename ++ "\nStatus: " ++ file.status ++ "\nPatch:\n" ++
            (match file.patch with
             | some p => p
             | Option.none => "No patch available"))) := by
  constructor
  · rw [filePatchList_eq_map, List.length_map]
  · show String.intercalate "\n\n" (filePatchList pr.files) = _
    rw [filePatchList_eq_map]
    rfl

/-- C5: a changed file for which the host surfaces no unified diff gets
exactly the literal sentinel "No patch available" as the patch text of its
block — never the empty string — and that block occurs in the snapshot's
block list. -/
theorem absent_patch_sentinel (files : List ChangedFile) (file : ChangedFile)
    (hmem : file ∈ files) (habs : file.patch = Option.none) :
    patchText file = "No patch available" ∧ patchText file ≠ "" ∧
    ("File: " ++ file.filename ++ "\nStatus: " ++ file.status ++
      "\nPatch:\nNo patch available") ∈ filePatchList files := by
  have hp : patchText file = "No patch available" := by simp [patchText, habs]
  refine ⟨hp, by rw [hp]; decide, ?_⟩
  rw [filePatchList_eq_map]
  refine List.mem_map.mpr ⟨file, hmem, ?_⟩
  rw [fileBlock, hp, String.append_assoc]
  rfl

/-- C5 witness: the second file of a two-file listing has no diff and its
block carries the sentinel. -/
theorem absent_patch_sentinel_witness :
    patchText ⟨"b.py", "added", Option.none⟩ = "No patch available" ∧
    patchText ⟨"b.py", "added", Option.none⟩ ≠ "" ∧
    "File: b.py\nStatus: added\nPatch:\nNo patch available" ∈
      filePatchList [⟨"a.py", "modified", some "@@ -1 +1 @@"⟩, ⟨"b.py", "added", Option.none⟩] :=
  absent_patch_sentinel _ ⟨"b.py", "added", Option.none⟩ (by simp) rfl

/-- C8: the snapshot's description is the literal default
"No description provided" exactly when the host surfaces an absent or empty
body, and the host-supplied body otherwise. -/
theorem description_default (pr : PullRequestData) :
    ((pr.body = Option.none ∨ pr.body = some "") →
      (buildPRDetails pr).description = "No description provided") ∧
    (∀ s : String, pr.body = some s → s ≠ "" →
      (buildPRDetails pr).description = s) := by
  constructor
  · rintro (h | h) <;> simp [buildPRDetails, h]
  · intro s h hs
    simp [buildPRDetails, h, hs]

/-- C8 witness: an empty body falls to the default; a non-empty body is
kept verbatim. -/
theorem description_default_witness :
    (buildPRDetails ⟨"T", some "", "alice", "open", "main", "feat", []⟩).description =
      "No description provided" ∧
    (buildPRDetails ⟨"T", some "Adds a feature", "alice", "open", "main", "feat", []⟩).description =
      "Adds a feature" :=
  ⟨(description_default _).1 (Or.inr rfl),
   (description_default _).2 "Adds a feature" rfl (by decide)⟩

/-- C9: `post_review_comment` performs no write to the hosting
collaborator: on every path (unknown pull request, failed rendering,
successful rendering) the hosting state after the call equals the state
before it — the posting statement is commented out in the source. -/
theorem post_review_comment_no_write (host : HostState) (pr_number : Int)
    (review_dict : List (String × PyValue)) :
    (post_review_comment host pr_number review_dict).2 = host := by
  rcases hg : getPull host pr_number with _ | pr
  · simp [post_review_comment, hg]
  · rcases hr : renderComment pr_number review_dict with e | c <;>
      simp [post_review_comment, hg, hr]

/-- C10: when the completion text is valid JSON, the decoded value — dict
or not — is returned as the review result unchanged; in particular a
decoded non-dict value is never replaced by the fallback dict. -/
theorem decoded_value_returned (review_str : String) (v : PyValue)
    (hok : jsonLoads review_str = some v) :
    parseReviewStr review_str = v ∧
    ((∀ kvs, v ≠ PyValue.dict kvs) →
      ∀ kvs, parseReviewStr review_str ≠ PyValue.dict kvs) := by
  have h1 : parseReviewStr review_str = v := by simp [parseReviewStr, hok]
  exact ⟨h1, fun hnd kvs => h1 ▸ hnd kvs⟩

/-- C10 witness: a JSON array decodes and is returned as the result. -/
theorem decoded_value_returned_witness :
    jsonLoads "[1, 2]" = some (PyValue.list [PyValue.int 1, PyValue.int 2]) ∧
    parseReviewStr "[1, 2]" = PyValue.list [PyValue.int 1, PyValue.int 2] :=
  ⟨rfl, (decoded_value_returned "[1, 2]" (PyValue.list [PyValue.int 1, PyValue.int 2]) rfl).1⟩

/-- Substring containment is preserved by prepending characters. -/
lemma strHasAux_append_left (xs ys n : List Char) (h : strHasAux ys n = true) :
    strHasAux (xs ++ ys) n = true := by
  induction xs with
  | nil => exact h
  | cons c t ih => simp [strHasAux, ih]

/-- Every list is a leading run of itself followed by anything. -/
lemma isPrefixOf_append_self (n rest : List Char) : n.isPrefixOf (n ++ rest) = true := by
  induction n with
  | nil => simp [List.isPrefixOf]
  | cons c t ih => simp [List.isPrefixOf, ih]

/-- A leading run is in particular a contiguous run. -/
lemma strHasAux_of_isPrefixOf (xs n : List Char) (h : n.isPrefixOf xs = true) :
    strHasAux xs n = true := by
  cases xs with
  | nil =>
    cases n with
    | nil => rfl
    | cons c t => simp [List.isPrefixOf] at h
  | cons c t => simp [strHasAux, h]

/-- A string occurs as a substring of any string of which it is the middle
component. -/
lemma strHas_middle (a n b : String) : strHas (a ++ (n ++ b)) n = true := by
  unfold strHas
  have hd : (a ++ (n ++ b)).toList = a.toList ++ (n.toList ++ b.toList) := by
    simp [String.toList, String.data_append]
  rw [hd]
  exact strHasAux_append_left _ _ _
    (strHasAux_of_isPrefixOf _ _ (isPrefixOf_append_self _ _))

/-- C6 (amended): for every review record whose rendering succeeds, each
list-valued field (strengths, concerns, recommendations, test_plan) that is
absent from the record has its corresponding section rendered as exactly
that field's specific default sentence ("No specific strengths noted",
"No specific concerns identified", "No specific recommendations" — the last
reused for both Recommendations and Testing Suggestions), each needle below
spanning from the section header to the next one; and absence never itself
makes rendering fail: a record with all four list fields absent renders
without exception. A field present but an empty list is not replaced by the
default (see the counterexample). -/
theorem render_absent_defaults (pr_number : Int) (review_dict : List (String × PyValue)) :
    (∀ s, renderComment pr_number review_dict = Except.ok s →
      ((pyDictFind review_dict "strengths" = Option.none →
          strHas s "\n\n### Strengths\nNo specific strengths noted\n\n### Concerns\n" = true) ∧
       (pyDictFind review_dict "concerns" = Option.none →
          strHas s "\n\n### Concerns\nNo specific concerns identified\n\n### Recommendations\n" = true) ∧
       (pyDictFind review_dict "recommendations" = Option.none →
          strHas s "\n\n### Recommendations\nNo specific recommendations\n\n### Testing Suggestions\n" = true) ∧
       (pyDictFind review_dict "test_plan" = Option.none →
          strHas s "\n\n### Testing Suggestions\nNo specific recommendations\n\n### Code Quality Score: " = true))) ∧
    ((pyDictFind review_dict "strengths" = Option.none ∧
      pyDictFind review_dict "concerns" = Option.none ∧
      pyDictFind review_dict "recommendations" = Option.none ∧
      pyDictFind review_dict "test_plan" = Option.none) →
      ∃ s, renderComment pr_number review_dict = Except.ok s) := by
  constructor
  · intro s hok
    unfold renderComment at hok
    split at hok
    · simp at hok
    · split at hok
      · simp at hok
      · split at hok
        · simp at hok
        · split at hok
          · simp at hok
          · rw [Except.ok.injEq] at hok
            subst hok
            rename_i x3 st hjs x2 co hjc x1 re hjr x0 te hjt
            refine ⟨?_, ?_, ?_, ?_⟩
            · intro hf
              have hst : st = "No specific strengths noted" := by
                rw [pyDictGet, hf] at hjs
                simp [pyJoin, allStrs] at hjs
                exact hjs.symm
              subst hst
              rw [show ("\n\n### Strengths\nNo specific strengths noted\n\n### Concerns\n" : String) =
                "\n\n### Strengths\n" ++ "No specific strengths noted" ++ "\n\n### Concerns\n" from rfl]
              have htpl : "## PR Review for #" ++ toString pr_number ++ "\n\n### Overall Assessment\n" ++
                  pyStr (pyDictGet review_dict "overall_assessment" (PyValue.str "No overall assessment provided")) ++
                  "\n\n### Strengths\n" ++ "No specific strengths noted" ++
                  "\n\n### Concerns\n" ++ co ++ "\n\n### Recommendations\n" ++ re ++
                  "\n\n### Testing Suggestions\n" ++ te ++ "\n\n### Code Quality Score: " ++
                  pyStr (pyDictGet review_dict "code_quality_score" (PyValue.str "N/A")) ++ "/10\n" =
                  ("## PR Review for #" ++ toString pr_number ++ "\n\n### Overall Assessment\n" ++
                    pyStr (pyDictGet review_dict "overall_assessment" (PyValue.str "No overall assessment provided"))) ++
                  (("\n\n### Strengths\n" ++ "No specific strengths noted" ++ "\n\n### Concerns\n") ++
                    (co ++ "\n\n### Recommendations\n" ++ re ++
                     "\n\n### Testing Suggestions\n" ++ te ++ "\n\n### Code Quality Score: " ++
                     pyStr (pyDictGet review_dict "code_quality_score" (PyValue.str "N/A")) ++ "/10\n")) := by
                simp [String.append_assoc]
              rw [htpl]
              exact strHas_middle _ _ _
            · intro hf
              have hco : co = "No specific concerns identified" := by
                rw [pyDictGet, hf] at hjc
                simp [pyJoin, allStrs] at hjc
                exact hjc.symm
              subst hco
              rw [show ("\n\n### Concerns\nNo specific concerns identified\n\n### Recommendations\n" : String) =
                "\n\n### Concerns\n" ++ "No specific concerns identified" ++ "\n\n### Recommendations\n" from rfl]
              have htpl : "## PR Review for #" ++ toString pr_number ++ "\n\n### Overall Assessment\n" ++
                  pyStr (pyDictGet review_dict "overall_assessment" (PyValue.str "No overall assessment provided")) ++
                  "\n\n### Strengths\n" ++ st ++
                  "\n\n### Concerns\n" ++ "No specific concerns identified" ++ "\n\n### Recommendations\n" ++ re ++
                  "\n\n### Testing Suggestions\n" ++ te ++ "\n\n### Code Quality Score: " ++
                  pyStr (pyDictGet review_dict "code_quality_score" (PyValue.str "N/A")) ++ "/10\n" =
                  ("## PR Review for #" ++ toString pr_number ++ "\n\n### Overall Assessment\n" ++
                    pyStr (pyDictGet review_dict "overall_assessment" (PyValue.str "No overall assessment provided")) ++
                    "\n\n### Strengths\n" ++ st) ++
                  (("\n\n### Concerns\n" ++ "No specific concerns identified" ++ "\n\n### Recommendations\n") ++
                    (re ++ "\n\n### Testing Suggestions\n" ++ te ++ "\n\n### Code Quality Score: " ++
                     pyStr (pyDictGet review_dict "code_quality_score" (PyValue.str "N/A")) ++ "/10\n")) := by
                simp [String.append_assoc]
              rw [htpl]
              exact strHas_middle _ _ _
            · intro hf
              have hre : re = "No specific recommendations" := by
                rw [pyDictGet, hf] at hjr
                simp [pyJoin, allStrs] at hjr
                exact hjr.symm
              subst hre
              rw [show ("\n\n### Recommendations\nNo specific recommendations\n\n### Testing Suggestions\n" : String) =
                "\n\n### Recommendations\n" ++ "No specific recommendations" ++ "\n\n### Testing Suggestions\n" from rfl]
              have htpl : "## PR Review for #" ++ toString pr_number ++ "\n\n### Overall Assessment\n" ++
                  pyStr (pyDictGet review_dict "overall_assessment" (PyValue.str "No overall assessment provided")) ++
                  "\n\n### Strengths\n" ++ st ++ "\n\n### Concerns\n" ++ co ++
                  "\n\n### Recommendations\n" ++ "No specific recommendations" ++
                  "\n\n### Testing Suggestions\n" ++ te ++ "\n\n### Code Quality Score: " ++
                  pyStr (pyDictGet review_dict "code_quality_score" (PyValue.str "N/A")) ++ "/10\n" =
                  ("## PR Review for #" ++ toString pr_number ++ "\n\n### Overall Assessment\n" ++
                    pyStr (pyDictGet review_dict "overall_assessment" (PyValue.str "No overall assessment provided")) ++
                    "\n\n### Strengths\n" ++ st ++ "\n\n### Concerns\n" ++ co) ++
                  (("\n\n### Recommendations\n" ++ "No specific recommendations" ++ "\n\n### Testing Suggestions\n") ++
                    (te ++ "\n\n### Code Quality Score: " ++
                     pyStr (pyDictGet review_dict "code_quality_score" (PyValue.str "N/A")) ++ "/10\n")) := by
                simp [String.append_assoc]
              rw [htpl]
              exact strHas_middle _ _ _
            · intro hf
              have hte : te = "No specific recommendations" := by
                rw [pyDictGet, hf] at hjt
                simp [pyJoin, allStrs] at hjt
                exact hjt.symm
              subst hte
              rw [show ("\n\n### Testing Suggestions\nNo specific recommendations\n\n### Code Quality Score: " : String) =
                "\n\n### Testing Suggestions\n" ++ "No specific recommendations" ++ "\n\n### Code Quality Score: " from rfl]
              have htpl : "## PR Review for #" ++ toString pr_number ++ "\n\n### Overall Assessment\n" ++
                  pyStr (pyDictGet review_dict "overall_assessment" (PyValue.str "No overall assessment provided")) ++
                  "\n\n### Strengths\n" ++ st ++ "\n\n### Concerns\n" ++ co ++
                  "\n\n### Recommendations\n" ++ re ++
                  "\n\n### Testing Suggestions\n" ++ "No specific recommendations" ++ "\n\n### Code Quality Score: " ++
                  pyStr (pyDictGet review_dict "code_quality_score" (PyValue.str "N/A")) ++ "/10\n" =
                  ("## PR Review for #" ++ toString pr_number ++ "\n\n### Overall Assessment\n" ++
                    pyStr (pyDictGet review_dict "overall_assessment" (PyValue.str "No overall assessment provided")) ++
                    "\n\n### Strengths\n" ++ st ++ "\n\n### Concerns\n" ++ co ++
                    "\n\n### Recommendations\n" ++ re) ++
                  (("\n\n### Testing Suggestions\n" ++ "No specific recommendations" ++ "\n\n### Code Quality Score: ") ++
                    (pyStr (pyDictGet review_dict "code_quality_score" (PyValue.str "N/A")) ++ "/10\n")) := by
                simp [String.append_assoc]
              rw [htpl]
              exact strHas_middle _ _ _
  · rintro ⟨hs, hc, hr, ht⟩
    have g1 : pyDictGet review_dict "strengths"
        (PyValue.list [PyValue.str "No specific strengths noted"]) =
        PyValue.list [PyValue.str "No specific strengths noted"] := by
      simp [pyDictGet, hs]
    have g2 : pyDictGet review_dict "concerns"
        (PyValue.list [PyValue.str "No specific concerns identified"]) =
        PyValue.list [PyValue.str "No specific concerns identified"] := by
      simp [pyDictGet, hc]
    have g3 : pyDictGet review_dict "recommendations"
        (PyValue.list [PyValue.str "No specific recommendations"]) =
        PyValue.list [PyValue.str "No specific recommendations"] := by
      simp [pyDictGet, hr]
    have g4 : pyDictGet review_dict "test_plan"
        (PyValue.list [PyValue.str "No specific recommendations"]) =
        PyValue.list [PyValue.str "No specific recommendations"] := by
      simp [pyDictGet, ht]
    rw [renderComment, g1, g2, g3, g4]
    exact ⟨_, rfl⟩

end PRAgent

namespace PRAgent

set_option maxRecDepth 40000 in
/-- C6 witness: a record with `strengths`, `recommendations` and `test_plan`
absent but `concerns` present renders the default sentences for the absent
fields while keeping the supplied concerns, with no exception. -/
theorem render_absent_defaults_witness :
    renderComment 4 [("concerns", PyValue.list [PyValue.str "Edge cases untested"])] =
      Except.ok "## PR Review for #4\n\n### Overall Assessment\nNo overall assessment provided\n\n### Strengths\nNo specific strengths noted\n\n### Concerns\nEdge cases untested\n\n### Recommendations\nNo specific recommendations\n\n### Testing Suggestions\nNo specific recommendations\n\n### Code Quality Score: N/A/10\n" ∧
    strHas "## PR Review for #4\n\n### Overall Assessment\nNo overall assessment provided\n\n### Strengths\nNo specific strengths noted\n\n### Concerns\nEdge cases untested\n\n### Recommendations\nNo specific recommendations\n\n### Testing Suggestions\nNo specific recommendations\n\n### Code Quality Score: N/A/10\n"
      "\n\n### Strengths\nNo specific strengths noted\n\n### Concerns\n" = true ∧
    strHas "## PR Review for #4\n\n### Overall Assessment\nNo overall assessment provided\n\n### Strengths\nNo specific strengths noted\n\n### Concerns\nEdge cases untested\n\n### Recommendations\nNo specific recommendations\n\n### Testing Suggestions\nNo specific recommendations\n\n### Code Quality Score: N/A/10\n"
      "\n\n### Testing Suggestions\nNo specific recommendations\n\n### Code Quality Score: " = true :=
  ⟨rfl,
   ((render_absent_defaults 4 [("concerns", PyValue.list [PyValue.str "Edge cases untested"])]).1 _ rfl).1 rfl,
   ((render_absent_defaults 4 [("concerns", PyValue.list [PyValue.str "Edge cases untested"])]).1 _ rfl).2.2.2 rfl⟩

set_option maxRecDepth 40000 in
/-- C6 counterexample: a record whose `strengths` field is present but the
empty list renders an empty Strengths section — the rendered comment does
not contain the default sentence "No specific strengths noted", refuting
the claim for present-but-empty fields. -/
theorem render_empty_strengths_no_default :
    renderComment 1 [("strengths", PyValue.list [])] =
      Except.ok "## PR Review for #1\n\n### Overall Assessment\nNo overall assessment provided\n\n### Strengths\n\n\n### Concerns\nNo specific concerns identified\n\n### Recommendations\nNo specific recommendations\n\n### Testing Suggestions\nNo specific recommendations\n\n### Code Quality Score: N/A/10\n" ∧
    strHas "## PR Review for #1\n\n### Overall Assessment\nNo overall assessment provided\n\n### Strengths\n\n\n### Concerns\nNo specific concerns identified\n\n### Recommendations\nNo specific recommendations\n\n### Testing Suggestions\nNo specific recommendations\n\n### Code Quality Score: N/A/10\n"
      "No specific strengths noted" = false :=
  ⟨rfl, by decide⟩

/-- C7: for every review record whose rendering succeeds, the Code Quality
Score line of the comment reads "N/A/10" when `code_quality_score` is
absent and "<value>/10" when it is present. -/
theorem score_line_rendering (pr_number : Int) (review_dict : List (String × PyValue)) (s : String)
    (hok : renderComment pr_number review_dict = Except.ok s) :
    ∃ body : String,
      (pyDictFind review_dict "code_quality_score" = Option.none →
        s = body ++ "\n\n### Code Quality Score: N/A/10\n") ∧
      (∀ v, pyDictFind review_dict "code_quality_score" = some v →
        s = body ++ ("\n\n### Code Quality Score: " ++ pyStr v ++ "/10\n")) := by
  unfold renderComment at hok
  split at hok
  · simp at hok
  · split at hok
    · simp at hok
    · split at hok
      · simp at hok
      · split at hok
        · simp at hok
        · rw [Except.ok.injEq] at hok
          subst hok
          rename_i x3 st hjs x2 co hjc x1 re hjr x0 te hjt
          refine ⟨"## PR Review for #" ++ toString pr_number ++ "\n\n### Overall Assessment\n" ++ pyStr (pyDictGet review_dict "overall_assessment" (PyValue.str "No overall assessment provided")) ++ "\n\n### Strengths\n" ++ st ++ "\n\n### Concerns\n" ++ co ++ "\n\n### Recommendations\n" ++ re ++ "\n\n### Testing Suggestions\n" ++ te, ?_, ?_⟩
          · intro hf
            have hget : pyDictGet review_dict "code_quality_score" (PyValue.str "N/A") =
                PyValue.str "N/A" := by
              simp [pyDictGet, hf]
            rw [hget]
            have hlit : "\n\n### Code Quality Score: N/A/10\n" =
                "\n\n### Code Quality Score: " ++ "N/A" ++ "/10\n" := rfl
            rw [hlit]
            simp [pyStr, String.append_assoc]
          · intro v hf
            have hget : pyDictGet review_dict "code_quality_score" (PyValue.str "N/A") = v := by
              simp [pyDictGet, hf]
            rw [hget]
            simp [String.append_assoc]

set_option maxRecDepth 40000 in
/-- C7 witness: scoring 7 renders the line "### Code Quality Score: 7/10". -/
theorem score_line_rendering_witness :
    ∃ body s, renderComment 3 [("code_quality_score", PyValue.int 7)] = Except.ok s ∧
      s = body ++ ("\n\n### Code Quality Score: " ++ "7" ++ "/10\n") := by
  obtain ⟨body, -, h2⟩ := score_line_rendering 3 [("code_quality_score", PyValue.int 7)] _ rfl
  exact ⟨body, _, rfl, h2 (PyValue.int 7) rfl⟩

end PRAgent
